import Mathlib

/-!
Verification development for the drowsiness-detection backend
(`flask-backend/app.py`).  The core pipeline (face/eye localisation,
preprocessing, temporal smoothing, decision policy) is shallowly embedded
below; external detectors (the Haar cascades) and the TFLite interpreter are
modelled as parameters, since the repository treats them as opaque
collaborators.  Images are modelled by their dimensions (the claims under
study are about shapes, control flow and the smoothing arithmetic, not about
pixel values); probabilities are modelled as rationals.
-/

/-- A detection rectangle `(x, y, w, h)` as returned by
`cv2.CascadeClassifier.detectMultiScale` (non-negative integer fields). -/
structure Rect where
  x : ℕ
  y : ℕ
  w : ℕ
  h : ℕ
deriving DecidableEq, Repr

/-- A single-channel (grayscale) image, modelled by its numpy dimensions:
`rows` is the height (`shape[0]`), `cols` is the width (`shape[1]`). -/
structure Img where
  rows : ℕ
  cols : ℕ
deriving DecidableEq, Repr

/-- Dimension semantics of `cv2.resize(src, dsize)`: `dsize` is an
`(width, height)` pair, and the result is an image of height `dsize[1]` and
width `dsize[0]` (numpy shape `(dsize[1], dsize[0])`), independent of the
source dimensions.  The error cv2 raises on an empty source is not modelled;
the claims under study only concern the dimensions of the result. -/
def cv2_resize (_src : Img) (dsize : ℕ × ℕ) : Img :=
  ⟨dsize.2, dsize.1⟩

/-- Length of the numpy slice `a[start : start + len]` over an axis of size
`bound`, for non-negative indices: numpy clamps both endpoints into
`[0, bound]`. -/
def sliceLen (start len bound : ℕ) : ℕ :=
  min (start + len) bound - min start bound

/-- The eye-merging step of `crop_eyes` (`app.py` lines 45-59): unpack the
first two eye rectangles as `(ex1,ey1,ew1,eh1)` and `(ex2,ey2,ew2,eh2)`; if
`ex1 > ex2`, swap the fields pairwise (which swaps the two rectangles
wholesale); then form the merged rectangle
`(ex1, min ey1 ey2, ex2 + ew2 - ex1, max eh1 eh2)`. -/
def mergeTwo (e1 e2 : Rect) : Rect :=
  let p := if e1.x > e2.x then (e2, e1) else (e1, e2)
  ⟨p.1.x, min p.1.y p.2.y, p.2.x + p.2.w - p.1.x, max p.1.h p.2.h⟩

/-- `crop_eyes` (`app.py` lines 31-68), parametrised by the detector outputs:
`M` is the global `MODEL_IMG_SIZE = (input_shape[1], input_shape[2]) = (H, W)`;
`img` gives the dimensions of the grayscale frame; `faces` is the list returned
by the face cascade; `eyesOf f` is the list the eye cascade returns on face
`f`'s sub-image.  The Python `for` loop over `faces` falls through to the next
face whenever the current face yields fewer than two eyes, and returns `None`
only after the loop.  On success it crops the merged eye rectangle out of the
face sub-image (numpy slicing, clamped) and resizes the crop with
`cv2.resize(eye_roi, (MODEL_IMG_SIZE[0] * 2, MODEL_IMG_SIZE[1] * 2))`. -/
def crop_eyes (M : ℕ × ℕ) (img : Img) (eyesOf : Rect → List Rect) :
    List Rect → Option Img
  | [] => none
  | f :: rest =>
    match eyesOf f with
    | e1 :: e2 :: _ =>
      let m := mergeTwo e1 e2
      let faceRoi : Img := ⟨sliceLen f.y f.h img.rows, sliceLen f.x f.w img.cols⟩
      let eyeRoi : Img := ⟨sliceLen m.y m.h faceRoi.rows, sliceLen m.x m.w faceRoi.cols⟩
      some (cv2_resize eyeRoi (M.1 * 2, M.2 * 2))
    | _ => crop_eyes M img eyesOf rest

/-- The classifier's declared input shape `input_shape = [1, H, W, C]`
(`app.py` lines 20-22): `MODEL_IMG_SIZE = (H, W)` and `REQUIRED_CHANNELS = C`. -/
structure Cfg where
  H : ℕ
  W : ℕ
  C : ℕ
deriving DecidableEq, Repr

/-- `preprocess_image` (`app.py` lines 70-83), tracked at the level of the
numpy shape of the returned tensor.  After `crop_eyes`, the code runs
`cv2.resize(eye_roi, MODEL_IMG_SIZE, interpolation=cv2.INTER_AREA)` (so the
result has numpy shape `(W, H)`, since cv2 reads the pair as
`(width, height)`), converts to float32 and divides by 255 (shape-preserving),
applies `cv2.COLOR_GRAY2RGB` when `REQUIRED_CHANNELS == 3` (appending a
3-channel axis; when `REQUIRED_CHANNELS` is 1 the array stays rank 2), and
prepends a batch axis with `np.expand_dims(..., axis=0)`. -/
def preprocess_image (cfg : Cfg) (img : Img) (eyesOf : Rect → List Rect)
    (faces : List Rect) : Option (List ℕ) :=
  match crop_eyes (cfg.H, cfg.W) img eyesOf faces with
  | none => none
  | some eyeRoi =>
    let resized := cv2_resize eyeRoi (cfg.H, cfg.W)
    let withChannels : List ℕ :=
      if cfg.C = 3 then [resized.rows, resized.cols, 3]
      else [resized.rows, resized.cols]
    some (1 :: withChannels)

/-- The raw value read back by `interpreter.get_tensor` as the code inspects
it: either a (rectangular, row-major flattened) ndarray with its shape and
data, or something that fails the `isinstance(output_data, np.ndarray)` test. -/
inductive RawOut where
  | ndarray (shape : List ℕ) (data : List ℚ)
  | other
deriving DecidableEq

/-- The three values `predict_drowsiness` can return. -/
inductive PredResult where
  | modelNotLoaded
  | drowsy
  | awake
deriving DecidableEq, Repr

/-- Result of one `predict_drowsiness` call together with its effects: the
smoothing window (`previous_predictions`) after the call, and whether the
locked inference block (`set_tensor` / `invoke` / `get_tensor`) ran. -/
structure PredOutcome where
  result : PredResult
  window : List ℚ
  inferenceRan : Bool
deriving DecidableEq, Repr

/-- One `append` on `previous_predictions = deque(maxlen=5)` (`app.py` lines
29 and 106): the window is kept oldest-first; appending to a full 5-element
deque evicts the oldest (leftmost) entry. -/
def push (win : List ℚ) (p : ℚ) : List ℚ :=
  if win.length = 5 then win.tail ++ [p] else win ++ [p]

/-- `np.mean` over the current window: the sum of the entries divided by
their count. -/
def mean (win : List ℚ) : ℚ :=
  win.sum / win.length

/-- `predict_drowsiness` (`app.py` lines 85-110).  `modelLoaded` is
`interpreter is not None`; `infer` maps the input tensor (represented by its
shape, its contents being opaque) to the raw output array; `win` is the
smoothing window before the call.  Order of checks as in the source: model
availability first, then eye localisation (absence → "Drowsy", nothing
pushed), then inference; a non-empty ndarray output yields
`probability = output_data[0][0]` (the first element), which is appended to
the window, and the label is "Drowsy" iff the smoothed mean exceeds 0.5;
an empty or non-ndarray output yields "Drowsy" with no append. -/
def predict_drowsiness (modelLoaded : Bool) (cfg : Cfg) (img : Img)
    (eyesOf : Rect → List Rect) (faces : List Rect)
    (infer : List ℕ → RawOut) (win : List ℚ) : PredOutcome :=
  if modelLoaded = false then ⟨.modelNotLoaded, win, false⟩
  else
    match preprocess_image cfg img eyesOf faces with
    | none => ⟨.drowsy, win, false⟩
    | some t =>
      match infer t with
      | .ndarray _ (p :: _) =>
        let win' := push win p
        ⟨if mean win' > 1/2 then .drowsy else .awake, win', true⟩
      | .ndarray _ [] => ⟨.drowsy, win, true⟩
      | .other => ⟨.drowsy, win, true⟩

/-- The merged rectangle as §4.1 step 5 of the spec words it: left/right are
the two eyes ordered by x-coordinate; `x` = left's x, `y` = min of the ys,
`width` = right's x + right's width − left's x, `height` = max of the
heights.  Stated independently of `mergeTwo` for comparison with it. -/
def spec_mergedRect (e1 e2 : Rect) : Rect :=
  let L := if e1.x < e2.x then e1 else e2
  let R := if e1.x < e2.x then e2 else e1
  ⟨L.x, min L.y R.y, R.x + R.w - L.x, max L.h R.h⟩

example : push [] (1/2) = [1/2] := by simp [push]
example : mergeTwo ⟨0, 0, 10, 10⟩ ⟨0, 5, 20, 7⟩ = ⟨0, 0, 20, 10⟩ := by decide
example : mergeTwo ⟨0, 5, 20, 7⟩ ⟨0, 0, 10, 10⟩ = ⟨0, 0, 10, 10⟩ := by decide

/-- Claim C1 (code bug): the claimed invariant "output tensor shape is exactly
`(1, H, W, C)`" fails on the code.  `cv2.resize` reads its second argument as
`(width, height)`, but `preprocess_image` passes `MODEL_IMG_SIZE = (H, W)`, so
for the declared shape `[1, 24, 32, 3]` the produced tensor has shape
`(1, 32, 24, 3)`; and for a single-channel classifier (`C = 1`) no channel
axis is ever added, so the tensor is rank 3 (`(1, W, H)`), never
`(1, H, W, 1)`. -/
theorem preprocess_shape_transposed :
    preprocess_image ⟨24, 32, 3⟩ ⟨200, 200⟩
        (fun _ => [⟨10, 20, 20, 10⟩, ⟨60, 20, 20, 10⟩]) [⟨0, 0, 100, 100⟩]
      = some [1, 32, 24, 3] ∧ ([1, 32, 24, 3] : List ℕ) ≠ [1, 24, 32, 3] ∧
    preprocess_image ⟨24, 24, 1⟩ ⟨200, 200⟩
        (fun _ => [⟨10, 20, 20, 10⟩, ⟨60, 20, 20, 10⟩]) [⟨0, 0, 100, 100⟩]
      = some [1, 24, 24] ∧ ([1, 24, 24] : List ℕ) ≠ [1, 24, 24, 1] := by
  decide

/-- Claim C2 (counterexample): merging is not invariant under swapping the two
detected eye rectangles.  With two eyes at the same x-coordinate but different
widths, no swap happens in either order, and the merged width
`ex2 + ew2 - ex1` picks up whichever eye is listed second. -/
theorem mergeTwo_swap_dependent_cex :
    mergeTwo ⟨0, 0, 10, 10⟩ ⟨0, 5, 20, 7⟩ ≠ mergeTwo ⟨0, 5, 20, 7⟩ ⟨0, 0, 10, 10⟩ := by
  decide

/-- Claim C2 (amended): whenever the two detected eye rectangles have distinct
x-coordinates, the merged rectangle satisfies the spec's formula (x = left
eye's x, y = min of the ys, width = right eye's x + width − left eye's x,
height = max of the heights, left/right ordered by x), and swapping the order
of the two rectangles yields an identical merged rectangle. -/
theorem mergeTwo_formula_swap_invariant (e1 e2 : Rect) (h : e1.x ≠ e2.x) :
    mergeTwo e1 e2 = spec_mergedRect e1 e2 ∧ mergeTwo e1 e2 = mergeTwo e2 e1 := by
  rcases Nat.lt_or_ge e1.x e2.x with hlt | hge
  · have h1 : ¬ e1.x > e2.x := by omega
    have h2 : e2.x > e1.x := hlt
    simp [mergeTwo, spec_mergedRect, h1, h2, hlt]
  · have hgt : e1.x > e2.x := by omega
    have h2 : ¬ e2.x > e1.x := by omega
    have hnlt : ¬ e1.x < e2.x := by omega
    simp [mergeTwo, spec_mergedRect, hgt, h2, hnlt]

/-- Witness for the amended C2 theorem at two concrete eye rectangles with
distinct x-coordinates. -/
theorem mergeTwo_formula_swap_invariant_witness :
    mergeTwo ⟨5, 0, 10, 10⟩ ⟨30, 5, 20, 7⟩ = spec_mergedRect ⟨5, 0, 10, 10⟩ ⟨30, 5, 20, 7⟩ ∧
    mergeTwo ⟨5, 0, 10, 10⟩ ⟨30, 5, 20, 7⟩ = mergeTwo ⟨30, 5, 20, 7⟩ ⟨5, 0, 10, 10⟩ :=
  mergeTwo_formula_swap_invariant ⟨5, 0, 10, 10⟩ ⟨30, 5, 20, 7⟩ (by decide)

/-- Claim C3 (counterexample): the Locator does not stop at the first face.
Here the first detected face yields zero eyes (fewer than two), yet the
Locator returns a region taken from the second face instead of signalling
absence. -/
theorem crop_eyes_uses_later_face_cex :
    ((fun f : Rect => if f.x = 0 then ([] : List Rect)
        else [⟨10, 20, 20, 10⟩, ⟨60, 20, 20, 10⟩]) ⟨0, 0, 100, 100⟩).length < 2 ∧
    crop_eyes (24, 24) ⟨200, 200⟩
        (fun f => if f.x = 0 then [] else [⟨10, 20, 20, 10⟩, ⟨60, 20, 20, 10⟩])
        [⟨0, 0, 100, 100⟩, ⟨100, 0, 100, 100⟩] ≠ none := by
  decide

/-- Claim C3 (amended): the Locator scans the detected faces in order,
skipping every face whose sub-image yields fewer than two detected eyes, and
signals absence exactly when every detected face yields fewer than two
eyes. -/
theorem crop_eyes_scans_all_faces (M : ℕ × ℕ) (img : Img) (eyesOf : Rect → List Rect) :
    (∀ f rest, (eyesOf f).length < 2 →
        crop_eyes M img eyesOf (f :: rest) = crop_eyes M img eyesOf rest) ∧
    (∀ faces, crop_eyes M img eyesOf faces = none ↔
        ∀ f ∈ faces, (eyesOf f).length < 2) := by
  have hskip : ∀ f rest, (eyesOf f).length < 2 →
      crop_eyes M img eyesOf (f :: rest) = crop_eyes M img eyesOf rest := by
    intro f rest hf
    rcases he : eyesOf f with _ | ⟨a, _ | ⟨b, tl⟩⟩
    · simp [crop_eyes, he]
    · simp [crop_eyes, he]
    · exfalso
      rw [he] at hf
      simp at hf
      omega
  refine ⟨hskip, ?_⟩
  intro faces
  induction faces with
  | nil => simp [crop_eyes]
  | cons f rest ih =>
    by_cases hf : (eyesOf f).length < 2
    · rw [hskip f rest hf, ih]
      simp [hf]
    · constructor
      · intro hnone
        exfalso
        rcases he : eyesOf f with _ | ⟨a, _ | ⟨b, tl⟩⟩
        · rw [he] at hf
          simp at hf
        · rw [he] at hf
          simp at hf
        · simp [crop_eyes, he] at hnone
      · intro hall
        exact absurd (hall f (by simp)) hf

/-- Witness for the amended C3 theorem: a face with no detected eyes is
skipped and localisation continues with the remaining faces. -/
theorem crop_eyes_scans_all_faces_witness :
    crop_eyes (24, 24) ⟨200, 200⟩ (fun _ => ([] : List Rect))
        [⟨0, 0, 50, 50⟩, ⟨50, 0, 50, 50⟩] =
      crop_eyes (24, 24) ⟨200, 200⟩ (fun _ => ([] : List Rect)) [⟨50, 0, 50, 50⟩] :=
  (crop_eyes_scans_all_faces (24, 24) ⟨200, 200⟩ (fun _ => [])).1
    ⟨0, 0, 50, 50⟩ [⟨50, 0, 50, 50⟩] (by decide)

/-- Claim C4: the Decision Policy uses a strict comparison against 0.5 on the
success path: a smoothed mean of exactly 1/2 yields Awake, and any smoothed
mean strictly above 1/2 yields Drowsy. -/
theorem decisionPolicy_strict_gt (cfg : Cfg) (img : Img) (eyesOf : Rect → List Rect)
    (faces : List Rect) (infer : List ℕ → RawOut) (win : List ℚ)
    (t s : List ℕ) (p : ℚ) (d : List ℚ)
    (hp : preprocess_image cfg img eyesOf faces = some t)
    (hi : infer t = RawOut.ndarray s (p :: d)) :
    (mean (push win p) = 1/2 →
      (predict_drowsiness true cfg img eyesOf faces infer win).result = PredResult.awake) ∧
    (1/2 < mean (push win p) →
      (predict_drowsiness true cfg img eyesOf faces infer win).result = PredResult.drowsy) := by
  constructor
  · intro hm
    simp [predict_drowsiness, hp, hi, hm]
  · intro hm
    simp [predict_drowsiness, hp, hi]
    simpa using hm

/-- Witness for C4: with an empty window and a raw output of exactly 1/2, the
smoothed mean is exactly 1/2 and the label is Awake. -/
theorem decisionPolicy_strict_gt_witness :
    (predict_drowsiness true ⟨24, 24, 3⟩ ⟨200, 200⟩
        (fun _ => [⟨10, 20, 20, 10⟩, ⟨60, 20, 20, 10⟩]) [⟨0, 0, 100, 100⟩]
        (fun _ => RawOut.ndarray [1, 1] [1/2]) []).result = PredResult.awake :=
  (decisionPolicy_strict_gt ⟨24, 24, 3⟩ ⟨200, 200⟩
      (fun _ => [⟨10, 20, 20, 10⟩, ⟨60, 20, 20, 10⟩]) [⟨0, 0, 100, 100⟩]
      (fun _ => RawOut.ndarray [1, 1] [1/2]) [] [1, 24, 24, 3] [1, 1] (1/2) []
      (by decide) rfl).1 (by norm_num [mean, push])

/-- Claim C5: the smoothing window holds at most 5 entries (a push on a full
window evicts the oldest entry), six pushes into an empty window leave exactly
the 5 most recent values, and `mean` is the arithmetic mean of the currently
held entries; pushing 0.2, 0.8, 0.6 gives mean 8/15 = 0.5333... -/
theorem smoothingWindow_ops :
    (∀ (win : List ℚ) (p : ℚ), win.length ≤ 5 → (push win p).length ≤ 5) ∧
    (∀ (win : List ℚ) (p : ℚ), win.length = 5 → push win p = win.tail ++ [p]) ∧
    (∀ p1 p2 p3 p4 p5 p6 : ℚ,
      List.foldl push [] [p1, p2, p3, p4, p5, p6] = [p2, p3, p4, p5, p6]) ∧
    (∀ win : List ℚ, win ≠ [] → mean win = win.sum / win.length) ∧
    mean (List.foldl push [] [1/5, 4/5, 3/5]) = 8/15 := by
  refine ⟨?_, ?_, ?_, ?_, ?_⟩
  · intro win p h
    by_cases h5 : win.length = 5
    · simp [push, h5]
    · simp only [push, h5, if_false, List.length_append, List.length_singleton]
      omega
  · intro win p h5
    simp [push, h5]
  · intro p1 p2 p3 p4 p5 p6
    rfl
  · intro win _
    rfl
  · norm_num [mean, push]

/-- Witness for C5: the hypotheses of the universally quantified conjuncts
discharged on concrete windows. -/
theorem smoothingWindow_ops_witness :
    (push [1, 2, 3, 4, 5] 6).length ≤ 5 ∧
    push [1, 2, 3, 4, 5] (6 : ℚ) = [1, 2, 3, 4, 5].tail ++ [6] ∧
    mean [1, 2] = ([1, 2] : List ℚ).sum / (([1, 2] : List ℚ).length : ℚ) :=
  ⟨smoothingWindow_ops.1 [1, 2, 3, 4, 5] 6 (by simp),
   smoothingWindow_ops.2.1 [1, 2, 3, 4, 5] 6 (by simp),
   smoothingWindow_ops.2.2.2.1 [1, 2] (by simp)⟩

/-- Claim C6: when the Locator signals absence, the call returns Drowsy, the
inference block never runs, and the smoothing window is returned unchanged. -/
theorem absence_failSafe (cfg : Cfg) (img : Img) (eyesOf : Rect → List Rect)
    (faces : List Rect) (infer : List ℕ → RawOut) (win : List ℚ)
    (h : crop_eyes (cfg.H, cfg.W) img eyesOf faces = none) :
    predict_drowsiness true cfg img eyesOf faces infer win =
      ⟨PredResult.drowsy, win, false⟩ := by
  simp [predict_drowsiness, preprocess_image, h]

/-- Witness for C6: with no detected faces the Locator signals absence and the
window `[7/10]` survives untouched. -/
theorem absence_failSafe_witness :
    predict_drowsiness true ⟨24, 24, 3⟩ ⟨200, 200⟩ (fun _ => []) []
        (fun _ => RawOut.other) [7/10] =
      ⟨PredResult.drowsy, [7/10], false⟩ :=
  absence_failSafe ⟨24, 24, 3⟩ ⟨200, 200⟩ (fun _ => []) [] (fun _ => RawOut.other)
    [7/10] rfl

/-- Claim C7: when the model failed to load, every call returns the distinct
model-not-loaded status (never the Awake or Drowsy labels), runs no inference
and leaves the window unchanged. -/
theorem modelNotLoaded_propagates (cfg : Cfg) (img : Img) (eyesOf : Rect → List Rect)
    (faces : List Rect) (infer : List ℕ → RawOut) (win : List ℚ) :
    predict_drowsiness false cfg img eyesOf faces infer win =
      ⟨PredResult.modelNotLoaded, win, false⟩ ∧
    PredResult.modelNotLoaded ≠ PredResult.awake ∧
    PredResult.modelNotLoaded ≠ PredResult.drowsy :=
  ⟨rfl, by decide, by decide⟩

/-- Claim C8: when the raw inference output is not a non-empty ndarray (empty
array, or not an ndarray at all), the call returns the fail-safe Drowsy
label. -/
theorem malformedOutput_failSafe (cfg : Cfg) (img : Img) (eyesOf : Rect → List Rect)
    (faces : List Rect) (infer : List ℕ → RawOut) (win : List ℚ) (t : List ℕ)
    (hp : preprocess_image cfg img eyesOf faces = some t)
    (hm : ∀ s p d, infer t ≠ RawOut.ndarray s (p :: d)) :
    (predict_drowsiness true cfg img eyesOf faces infer win).result = PredResult.drowsy := by
  cases hi : infer t with
  | ndarray s data =>
    cases data with
    | nil => simp [predict_drowsiness, hp, hi]
    | cons p d => exact absurd hi (hm s p d)
  | other => simp [predict_drowsiness, hp, hi]

/-- Witness for C8: a non-ndarray raw output on a successfully located eye
region yields Drowsy. -/
theorem malformedOutput_failSafe_witness :
    (predict_drowsiness true ⟨24, 24, 3⟩ ⟨200, 200⟩
        (fun _ => [⟨10, 20, 20, 10⟩, ⟨60, 20, 20, 10⟩]) [⟨0, 0, 100, 100⟩]
        (fun _ => RawOut.other) [3/10]).result = PredResult.drowsy :=
  malformedOutput_failSafe ⟨24, 24, 3⟩ ⟨200, 200⟩
    (fun _ => [⟨10, 20, 20, 10⟩, ⟨60, 20, 20, 10⟩]) [⟨0, 0, 100, 100⟩]
    (fun _ => RawOut.other) [3/10] [1, 24, 24, 3] (by decide)
    (fun s p d hEq => nomatch hEq)

/-- Claim C9 (counterexample): with declared model size `(H, W) = (24, 32)`,
the zoomed eye-region image has numpy shape `(64, 48)` — height `2·W` and
width `2·H` — whereas the target model resolution × 2 is height `2·H = 48`
and width `2·W = 64`; the two differ. -/
theorem crop_eyes_zoom_transposed_cex :
    crop_eyes (24, 32) ⟨200, 200⟩ (fun _ => [⟨10, 20, 20, 10⟩, ⟨60, 20, 20, 10⟩])
        [⟨0, 0, 100, 100⟩] = some ⟨64, 48⟩ ∧
    Img.mk 64 48 ≠ Img.mk 48 64 := by
  decide

/-- Claim C9 (amended): after cropping, the Locator resizes the crop to the
fixed target obtained by passing `(2·H, 2·W)` as cv2's `(width, height)`
pair, so the zoomed eye-region image always has height `2·W` and width `2·H`
(the transpose of "model resolution × 2", coinciding with it exactly when
`H = W`); the target is fixed and independent of the crop's own size. -/
theorem crop_eyes_zoom_target (M : ℕ × ℕ) (img : Img) (eyesOf : Rect → List Rect)
    (f : Rect) (rest : List Rect) (e1 e2 : Rect) (tl : List Rect)
    (h : eyesOf f = e1 :: e2 :: tl) :
    crop_eyes M img eyesOf (f :: rest) = some ⟨M.2 * 2, M.1 * 2⟩ := by
  simp [crop_eyes, h, cv2_resize]

/-- Witness for the amended C9 theorem at a concrete non-square model size. -/
theorem crop_eyes_zoom_target_witness :
    crop_eyes (24, 32) ⟨300, 300⟩ (fun _ => [⟨12, 25, 18, 12⟩, ⟨55, 22, 18, 14⟩])
        [⟨0, 0, 120, 120⟩] = some ⟨32 * 2, 24 * 2⟩ :=
  crop_eyes_zoom_target (24, 32) ⟨300, 300⟩
    (fun _ => [⟨12, 25, 18, 12⟩, ⟨55, 22, 18, 14⟩]) ⟨0, 0, 120, 120⟩ []
    ⟨12, 25, 18, 12⟩ ⟨55, 22, 18, 14⟩ [] rfl

/-- Claim C10: the smoothing window is mutated only on the
successful-inference path.  A single probability is appended exactly when the
model is loaded, an eye region is located, and inference yields a non-empty
ndarray; on the model-unavailable path, the absence path and the
empty/malformed-output path the window is returned unchanged. -/
theorem window_mutation_paths (cfg : Cfg) (img : Img) (eyesOf : Rect → List Rect)
    (faces : List Rect) (infer : List ℕ → RawOut) (win : List ℚ) :
    ((predict_drowsiness false cfg img eyesOf faces infer win).window = win) ∧
    (preprocess_image cfg img eyesOf faces = none →
      (predict_drowsiness true cfg img eyesOf faces infer win).window = win ∧
      (predict_drowsiness true cfg img eyesOf faces infer win).inferenceRan = false) ∧
    (∀ t s p d, preprocess_image cfg img eyesOf faces = some t →
      infer t = RawOut.ndarray s (p :: d) →
      (predict_drowsiness true cfg img eyesOf faces infer win).window = push win p ∧
      (predict_drowsiness true cfg img eyesOf faces infer win).inferenceRan = true) ∧
    (∀ t, preprocess_image cfg img eyesOf faces = some t →
      (∀ s p d, infer t ≠ RawOut.ndarray s (p :: d)) →
      (predict_drowsiness true cfg img eyesOf faces infer win).window = win) := by
  refine ⟨rfl, ?_, ?_, ?_⟩
  · intro hp
    simp [predict_drowsiness, hp]
  · intro t s p d hp hi
    simp [predict_drowsiness, hp, hi]
  · intro t hp hm
    cases hi : infer t with
    | ndarray s data =>
      cases data with
      | nil => simp [predict_drowsiness, hp, hi]
      | cons p d => exact absurd hi (hm s p d)
    | other => simp [predict_drowsiness, hp, hi]

/-- Witness for C10: on a successful inference the probability 9/10 is
appended to the window `[1/10]` and the inference block ran. -/
theorem window_mutation_paths_witness :
    (predict_drowsiness true ⟨24, 24, 3⟩ ⟨200, 200⟩
        (fun _ => [⟨10, 20, 20, 10⟩, ⟨60, 20, 20, 10⟩]) [⟨0, 0, 100, 100⟩]
        (fun _ => RawOut.ndarray [1, 1] [9/10]) [1/10]).window = push [1/10] (9/10) ∧
    (predict_drowsiness true ⟨24, 24, 3⟩ ⟨200, 200⟩
        (fun _ => [⟨10, 20, 20, 10⟩, ⟨60, 20, 20, 10⟩]) [⟨0, 0, 100, 100⟩]
        (fun _ => RawOut.ndarray [1, 1] [9/10]) [1/10]).inferenceRan = true :=
  (window_mutation_paths ⟨24, 24, 3⟩ ⟨200, 200⟩
      (fun _ => [⟨10, 20, 20, 10⟩, ⟨60, 20, 20, 10⟩]) [⟨0, 0, 100, 100⟩]
      (fun _ => RawOut.ndarray [1, 1] [9/10]) [1/10]).2.2.1
    [1, 24, 24, 3] [1, 1] (9/10) [] (by decide) rfl
